import Mathlib

/-!
Verification of the credit-card fraud scoring service.

The service is a single HTTP endpoint. A `Transaction` record is validated at the
boundary (field presence, types and ranges), then a pure weighted-sum heuristic
produces a score in [0,1], a label ("Fraud" / "Legit") and a textual explanation,
and the result is best-effort persisted (a persistence failure is swallowed and
surfaces only as a null stored identifier).

Real numbers of the source are embedded as rationals; the persistence
collaborator is a function parameter returning `Option String` (`none` models a
raised error that the handler catches). The request-validation layer performed by
the schema library is modelled from the spec, with the range constraints taken
from the `Field` declarations of `schemas.py`.
-/

/-- A validated transaction record, mirroring the `Transaction` pydantic model of
`schemas.py` (field for field, in source order). -/
structure Transaction where
  amount : ℚ
  merchant : String
  category : String
  distance_from_home : ℚ
  distance_from_last_transaction : ℚ
  repeat_retailer : Bool
  used_chip : Bool
  used_pin_number : Bool
  online_order : Bool
  hour : ℤ
  age : ℤ
  international : Bool
  velocity_24h : ℤ
deriving DecidableEq

/-- The range constraints the `Field(...)` declarations of `schemas.py` put on a
`Transaction`: `amount ≥ 0`, both distances `≥ 0`, `0 ≤ hour ≤ 23`,
`16 ≤ age ≤ 120`, `velocity_24h ≥ 0`. -/
def Transaction.Valid (t : Transaction) : Prop :=
  0 ≤ t.amount ∧ 0 ≤ t.distance_from_home ∧ 0 ≤ t.distance_from_last_transaction ∧
    0 ≤ t.hour ∧ t.hour ≤ 23 ∧ 16 ≤ t.age ∧ t.age ≤ 120 ∧ 0 ≤ t.velocity_24h

instance (t : Transaction) : Decidable t.Valid := by
  unfold Transaction.Valid
  infer_instance

/-- The hours the scorer treats as night time, the list `[0,1,2,3,4]` of
`main.py`. -/
def nightHours : List ℤ := [0, 1, 2, 3, 4]

/-- The raw heuristic risk sum accumulated into the variable `risk` by
`predict` in `main.py` (lines 65-77), term by term in source order. -/
def riskSum (t : Transaction) : ℚ :=
  min (t.amount / 500) 1 * 0.25
    + min (t.distance_from_home / 1000) 1 * 0.1
    + min (t.distance_from_last_transaction / 500) 1 * 0.1
    + (if !t.repeat_retailer then 0.1 else 0)
    + (if t.online_order then 0.1 else 0)
    + (if !t.used_chip then 0.08 else 0)
    + (if !t.used_pin_number then 0.08 else 0)
    + (if t.international then 0.1 else 0)
    + min ((t.velocity_24h : ℚ) / 20) 1 * 0.19
    + (if t.hour ∈ nightHours then 0.1 else 0)

/-- Final score: `max(0.0, min(risk, 1.0))` (`main.py` line 79). -/
def score (t : Transaction) : ℚ :=
  max 0 (min (riskSum t) 1)

/-- Label: `"Fraud" if score >= 0.5 else "Legit"` (`main.py` line 80). -/
def label (t : Transaction) : String :=
  if score t ≥ 0.5 then "Fraud" else "Legit"

/-- The reason strings collected by `predict` (`main.py` lines 83-92), appended
independently in source order. -/
def reasons (t : Transaction) : List String :=
  (if t.amount > 500 then ["high amount"] else [])
    ++ (if t.international then ["international"] else [])
    ++ (if t.online_order then ["online order"] else [])
    ++ (if !t.repeat_retailer then ["new merchant"] else [])
    ++ (if !t.used_chip then ["no chip"] else [])
    ++ (if !t.used_pin_number then ["no PIN"] else [])
    ++ (if t.velocity_24h > 5 then ["high velocity"] else [])
    ++ (if t.distance_from_home > 200 then ["far from home"] else [])
    ++ (if t.hour ∈ nightHours then ["night time"] else [])

/-- Explanation string (`main.py` lines 94-96): the reasons joined with `", "`
behind `"Risk drivers: "` when at least one fired, otherwise the fixed string
`"Low-risk pattern"`. -/
def explanation (t : Transaction) : String :=
  if reasons t ≠ [] then "Risk drivers: " ++ String.intercalate ", " (reasons t)
  else "Low-risk pattern"

/-- The `Prediction` document of `schemas.py`: the transaction plus the scoring
output, persisted as one document. -/
structure Prediction where
  transaction : Transaction
  score : ℚ
  label : String
  explanation : String

/-- The `PredictResponse` model of `main.py`. -/
structure PredictResponse where
  score : ℚ
  label : String
  explanation : String
  stored_id : Option String
deriving DecidableEq

/-- The body of the `/predict` handler on a validated `Transaction`
(`main.py` lines 59-111). The persistence collaborator `create_document` takes
the collection name and the document; `none` models a raised error, which the
`try`/`except` of the source catches, leaving `stored_id = None`. -/
def predict (create_document : String → Prediction → Option String)
    (t : Transaction) : PredictResponse :=
  let s := score t
  let l := label t
  let e := explanation t
  let stored_id : Option String := create_document "prediction" ⟨t, s, l, e⟩
  ⟨s, l, e, stored_id⟩

/-- A persistence collaborator that always fails (models an unreachable
database: every `create_document` call raises). -/
def storeFail : String → Prediction → Option String := fun _ _ => none

/-- A persistence collaborator that always succeeds with a fixed identifier. -/
def storeOk : String → Prediction → Option String := fun _ _ => some "id-1"

/-- The raw weighted sum exactly as the table of spec section 4.1 states it:
each signal clamped to its own contribution, flat weights for the boolean
signals, night hours the set `{0,1,2,3,4}`. -/
def specRawSum (t : Transaction) : ℚ :=
  min (t.amount / 500) 1 * 0.25
    + min (t.distance_from_home / 1000) 1 * 0.1
    + min (t.distance_from_last_transaction / 500) 1 * 0.1
    + (if t.repeat_retailer then 0 else 0.1)
    + (if t.online_order then 0.1 else 0)
    + (if t.used_chip then 0 else 0.08)
    + (if t.used_pin_number then 0 else 0.08)
    + (if t.international then 0.1 else 0)
    + min ((t.velocity_24h : ℚ) / 20) 1 * 0.19
    + (if t.hour ∈ ({0, 1, 2, 3, 4} : Finset ℤ) then 0.1 else 0)

/-- Every maximal-contribution condition of the spec's table holding
simultaneously: each clamped ratio saturated and each flat weight active. -/
def MaximalConds (t : Transaction) : Prop :=
  500 ≤ t.amount ∧ 1000 ≤ t.distance_from_home ∧ 500 ≤ t.distance_from_last_transaction ∧
    t.repeat_retailer = false ∧ t.online_order = true ∧ t.used_chip = false ∧
    t.used_pin_number = false ∧ t.international = true ∧ 20 ≤ t.velocity_24h ∧
    t.hour ∈ ({0, 1, 2, 3, 4} : Finset ℤ)

/-- The explanation reason list as the spec words it: the nine threshold checks
in the spec's fixed order, each appended independently when it holds. -/
def specReasons (t : Transaction) : List String :=
  (if t.amount > 500 then ["high amount"] else [])
    ++ (if t.international then ["international"] else [])
    ++ (if t.online_order then ["online order"] else [])
    ++ (if t.repeat_retailer = false then ["new merchant"] else [])
    ++ (if t.used_chip = false then ["no chip"] else [])
    ++ (if t.used_pin_number = false then ["no PIN"] else [])
    ++ (if t.velocity_24h > 5 then ["high velocity"] else [])
    ++ (if t.distance_from_home > 200 then ["far from home"] else [])
    ++ (if t.hour ∈ ({0, 1, 2, 3, 4} : Finset ℤ) then ["night time"] else [])

/-- Modelled from the spec: a scalar JSON value of a request body field (the
schema library performing type checks is not part of src/). -/
inductive Json where
  | num (q : ℚ)
  | str (s : String)
  | bool (b : Bool)
deriving DecidableEq

/-- Modelled from the spec: a structured validation error carrying the field
name, the constraint violated and the received value (spec section 4.2). -/
structure ValidationError where
  fieldName : String
  constraintName : String
  received : Option Json
deriving DecidableEq

/-- Modelled from the spec: the raw (pre-validation) request body, each field of
the `Transaction` schema either absent or some JSON scalar. -/
structure RawTransaction where
  amount : Option Json
  merchant : Option Json
  category : Option Json
  distance_from_home : Option Json
  distance_from_last_transaction : Option Json
  repeat_retailer : Option Json
  used_chip : Option Json
  used_pin_number : Option Json
  online_order : Option Json
  hour : Option Json
  age : Option Json
  international : Option Json
  velocity_24h : Option Json
deriving DecidableEq

/-- Modelled from the spec: validation of a required numeric field with a lower
bound, as pydantic enforces `Field(..., ge=lo)`. -/
def checkNumGe (name : String) (lo : ℚ) (v : Option Json) : List ValidationError :=
  match v with
  | none => [⟨name, "missing", none⟩]
  | some (Json.num q) => if lo ≤ q then [] else [⟨name, "ge", some (Json.num q)⟩]
  | some j => [⟨name, "wrong type", some j⟩]

/-- Modelled from the spec: validation of a required integer field with both
bounds, as pydantic enforces `Field(..., ge=lo, le=hi)` on an `int`. -/
def checkIntBetween (name : String) (lo hi : ℤ) (v : Option Json) : List ValidationError :=
  match v with
  | none => [⟨name, "missing", none⟩]
  | some (Json.num q) =>
      if q.den = 1 then
        if lo ≤ q.num ∧ q.num ≤ hi then [] else [⟨name, "range", some (Json.num q)⟩]
      else [⟨name, "wrong type", some (Json.num q)⟩]
  | some j => [⟨name, "wrong type", some j⟩]

/-- Modelled from the spec: validation of a required integer field with a lower
bound only, as pydantic enforces `Field(..., ge=lo)` on an `int`. -/
def checkIntGe (name : String) (lo : ℤ) (v : Option Json) : List ValidationError :=
  match v with
  | none => [⟨name, "missing", none⟩]
  | some (Json.num q) =>
      if q.den = 1 then
        if lo ≤ q.num then [] else [⟨name, "ge", some (Json.num q)⟩]
      else [⟨name, "wrong type", some (Json.num q)⟩]
  | some j => [⟨name, "wrong type", some j⟩]

/-- Modelled from the spec: validation of a required text field. -/
def checkText (name : String) (v : Option Json) : List ValidationError :=
  match v with
  | none => [⟨name, "missing", none⟩]
  | some (Json.str _) => []
  | some j => [⟨name, "wrong type", some j⟩]

/-- Modelled from the spec: validation of a required boolean field. -/
def checkBool (name : String) (v : Option Json) : List ValidationError :=
  match v with
  | none => [⟨name, "missing", none⟩]
  | some (Json.bool _) => []
  | some j => [⟨name, "wrong type", some j⟩]

/-- Modelled from the spec: all validation errors of a raw request body, one
check per `Transaction` field in the declaration order of `schemas.py`. -/
def fieldErrors (raw : RawTransaction) : List ValidationError :=
  checkNumGe "amount" 0 raw.amount
    ++ checkText "merchant" raw.merchant
    ++ checkText "category" raw.category
    ++ checkNumGe "distance_from_home" 0 raw.distance_from_home
    ++ checkNumGe "distance_from_last_transaction" 0 raw.distance_from_last_transaction
    ++ checkBool "repeat_retailer" raw.repeat_retailer
    ++ checkBool "used_chip" raw.used_chip
    ++ checkBool "used_pin_number" raw.used_pin_number
    ++ checkBool "online_order" raw.online_order
    ++ checkIntBetween "hour" 0 23 raw.hour
    ++ checkIntBetween "age" 16 120 raw.age
    ++ checkBool "international" raw.international
    ++ checkIntGe "velocity_24h" 0 raw.velocity_24h

/-- Modelled from the spec: numeric payload of a checked field (only read after
the field passed its check). -/
def getNum (v : Option Json) : ℚ :=
  match v with
  | some (Json.num q) => q
  | _ => 0

/-- Modelled from the spec: integer payload of a checked field. -/
def getInt (v : Option Json) : ℤ :=
  match v with
  | some (Json.num q) => q.num
  | _ => 0

/-- Modelled from the spec: text payload of a checked field. -/
def getText (v : Option Json) : String :=
  match v with
  | some (Json.str s) => s
  | _ => ""

/-- Modelled from the spec: boolean payload of a checked field. -/
def getBool (v : Option Json) : Bool :=
  match v with
  | some (Json.bool b) => b
  | _ => false

/-- Modelled from the spec: the typed record built from a raw body that passed
every check. -/
def extract (raw : RawTransaction) : Transaction :=
  ⟨getNum raw.amount, getText raw.merchant, getText raw.category,
    getNum raw.distance_from_home, getNum raw.distance_from_last_transaction,
    getBool raw.repeat_retailer, getBool raw.used_chip, getBool raw.used_pin_number,
    getBool raw.online_order, getInt raw.hour, getInt raw.age,
    getBool raw.international, getInt raw.velocity_24h⟩

/-- Modelled from the spec: boundary validation of the request body, rejecting
with the structured error list when any check fires and producing the typed
record otherwise. -/
def validate (raw : RawTransaction) : Except (List ValidationError) Transaction :=
  match fieldErrors raw with
  | [] => Except.ok (extract raw)
  | e :: es => Except.error (e :: es)

/-- Modelled from the spec: the two possible HTTP outcomes of `POST /predict`:
a 200 success body or a 422 structured validation error. -/
inductive PredictHttpResult where
  | ok (r : PredictResponse)
  | validationError (errs : List ValidationError)
deriving DecidableEq

/-- Modelled from the spec: HTTP status code of a `/predict` outcome. -/
def PredictHttpResult.status : PredictHttpResult → ℕ
  | .ok _ => 200
  | .validationError _ => 422

/-- Modelled from the spec: the full `/predict` route: validate, then run the
handler body only on the validated record. -/
def handlePredict (create_document : String → Prediction → Option String)
    (raw : RawTransaction) : PredictHttpResult :=
  match validate raw with
  | Except.error errs => PredictHttpResult.validationError errs
  | Except.ok t => PredictHttpResult.ok (predict create_document t)

/-- A present field whose JSON value is not a string (a text field of wrong
type). -/
def NotText (v : Option Json) : Prop :=
  ∃ j, v = some j ∧ ∀ s, j ≠ Json.str s

/-- A present field whose JSON value is not a boolean (a boolean field of wrong
type). -/
def NotBool (v : Option Json) : Prop :=
  ∃ j, v = some j ∧ ∀ b, j ≠ Json.bool b

/-- Some required field of the request body is absent. -/
def MissingRequired (raw : RawTransaction) : Prop :=
  raw.amount = none ∨ raw.merchant = none ∨ raw.category = none ∨
    raw.distance_from_home = none ∨ raw.distance_from_last_transaction = none ∨
    raw.repeat_retailer = none ∨ raw.used_chip = none ∨ raw.used_pin_number = none ∨
    raw.online_order = none ∨ raw.hour = none ∨ raw.age = none ∨
    raw.international = none ∨ raw.velocity_24h = none

/-- Some boolean or text field of the request body has the wrong type. -/
def WrongTypeBoolOrText (raw : RawTransaction) : Prop :=
  NotText raw.merchant ∨ NotText raw.category ∨ NotBool raw.repeat_retailer ∨
    NotBool raw.used_chip ∨ NotBool raw.used_pin_number ∨ NotBool raw.online_order ∨
    NotBool raw.international

/-- The rejection conditions claim C6 lists: a required field missing, a
negative amount or distance, hour outside [0,23], age outside [16,120],
negative velocity, or a boolean/text field of wrong type. -/
def BadInput (raw : RawTransaction) : Prop :=
  MissingRequired raw ∨
    (∃ q, raw.amount = some (Json.num q) ∧ q < 0) ∨
    (∃ q, raw.distance_from_home = some (Json.num q) ∧ q < 0) ∨
    (∃ q, raw.distance_from_last_transaction = some (Json.num q) ∧ q < 0) ∨
    (∃ q, raw.hour = some (Json.num q) ∧ q.den = 1 ∧ (q.num < 0 ∨ 23 < q.num)) ∨
    (∃ q, raw.age = some (Json.num q) ∧ q.den = 1 ∧ (q.num < 16 ∨ 120 < q.num)) ∨
    (∃ q, raw.velocity_24h = some (Json.num q) ∧ q.den = 1 ∧ q.num < 0) ∨
    WrongTypeBoolOrText raw

/-- Serialization of a typed `Transaction` back into a raw request body. -/
def rawOf (t : Transaction) : RawTransaction :=
  ⟨some (Json.num t.amount), some (Json.str t.merchant), some (Json.str t.category),
    some (Json.num t.distance_from_home), some (Json.num t.distance_from_last_transaction),
    some (Json.bool t.repeat_retailer), some (Json.bool t.used_chip),
    some (Json.bool t.used_pin_number), some (Json.bool t.online_order),
    some (Json.num (t.hour : ℚ)), some (Json.num (t.age : ℚ)),
    some (Json.bool t.international), some (Json.num (t.velocity_24h : ℚ))⟩

/-- The worked low-risk example of the spec (merchant and category are not
named there and do not influence the result). -/
def exampleTx : Transaction :=
  { amount := 50, merchant := "m", category := "c", distance_from_home := 5,
    distance_from_last_transaction := 2, repeat_retailer := true, used_chip := true,
    used_pin_number := true, online_order := false, hour := 14, age := 35,
    international := false, velocity_24h := 1 }

/-- The worked example with merchant, category and age changed, for the
irrelevance claim. -/
def exampleTx2 : Transaction :=
  { exampleTx with merchant := "n", category := "d", age := 60 }

/-- A raw request body that is valid except for `hour = 24`. -/
def rawBadHour : RawTransaction :=
  { rawOf exampleTx with hour := some (Json.num 24) }

/-- Membership in the source's night-hour list agrees with membership in the
spec's set. -/
lemma mem_nightHours_iff (n : ℤ) : n ∈ nightHours ↔ n ∈ ({0, 1, 2, 3, 4} : Finset ℤ) := by
  simp [nightHours]

/-- The risk sum of the source agrees term by term with the spec's table. -/
lemma riskSum_eq_spec (t : Transaction) : riskSum t = specRawSum t := by
  unfold riskSum specRawSum
  simp only [mem_nightHours_iff]
  cases t.repeat_retailer <;> cases t.online_order <;> cases t.used_chip <;>
    cases t.used_pin_number <;> cases t.international <;> simp

/-- A clamped contribution never exceeds its weight. -/
lemma clampTerm_le (x w : ℚ) (hw : 0 ≤ w) : min x 1 * w ≤ w :=
  mul_le_of_le_one_left hw (min_le_right x 1)

/-- A clamped contribution attains its weight exactly when the ratio is
saturated. -/
lemma clampTerm_eq_iff (x w : ℚ) (hw : 0 < w) : min x 1 * w = w ↔ 1 ≤ x := by
  constructor
  · intro h
    have h1 : min x 1 = 1 :=
      mul_right_cancel₀ (ne_of_gt hw) (h.trans (one_mul w).symm)
    exact min_eq_right_iff.mp h1
  · intro h
    rw [min_eq_right h, one_mul]

/-- Clamping to [0,1] is monotone, so a risk-sum inequality carries over to the
score. -/
lemma score_mono_of_riskSum (t1 t2 : Transaction) (h : riskSum t1 ≤ riskSum t2) :
    score t1 ≤ score t2 :=
  max_le_max le_rfl (min_le_min h le_rfl)

/-- A numeric lower-bound check passes exactly on a present number meeting the
bound. -/
lemma checkNumGe_eq_nil_iff (name : String) (lo : ℚ) (v : Option Json) :
    checkNumGe name lo v = [] ↔ ∃ q, v = some (Json.num q) ∧ lo ≤ q := by
  cases v with
  | none => simp [checkNumGe]
  | some j =>
    cases j with
    | num q =>
      simp only [checkNumGe]
      split <;> simp_all
    | str s => simp [checkNumGe]
    | bool b => simp [checkNumGe]

/-- A bounded integer check passes exactly on a present integral number inside
the bounds. -/
lemma checkIntBetween_eq_nil_iff (name : String) (lo hi : ℤ) (v : Option Json) :
    checkIntBetween name lo hi v = [] ↔
      ∃ q, v = some (Json.num q) ∧ q.den = 1 ∧ lo ≤ q.num ∧ q.num ≤ hi := by
  cases v with
  | none => simp [checkIntBetween]
  | some j =>
    cases j with
    | num q =>
      simp only [checkIntBetween]
      split
      · split <;> simp_all
      · simp_all
    | str s => simp [checkIntBetween]
    | bool b => simp [checkIntBetween]

/-- An integer lower-bound check passes exactly on a present integral number
meeting the bound. -/
lemma checkIntGe_eq_nil_iff (name : String) (lo : ℤ) (v : Option Json) :
    checkIntGe name lo v = [] ↔ ∃ q, v = some (Json.num q) ∧ q.den = 1 ∧ lo ≤ q.num := by
  cases v with
  | none => simp [checkIntGe]
  | some j =>
    cases j with
    | num q =>
      simp only [checkIntGe]
      split
      · split <;> simp_all
      · simp_all
    | str s => simp [checkIntGe]
    | bool b => simp [checkIntGe]

/-- A text check passes exactly on a present string. -/
lemma checkText_eq_nil_iff (name : String) (v : Option Json) :
    checkText name v = [] ↔ ∃ s, v = some (Json.str s) := by
  cases v with
  | none => simp [checkText]
  | some j => cases j <;> simp [checkText]

/-- A boolean check passes exactly on a present boolean. -/
lemma checkBool_eq_nil_iff (name : String) (v : Option Json) :
    checkBool name v = [] ↔ ∃ b, v = some (Json.bool b) := by
  cases v with
  | none => simp [checkBool]
  | some j => cases j <;> simp [checkBool]

/-- The error list is empty exactly when every per-field check passes. -/
lemma fieldErrors_eq_nil_iff (raw : RawTransaction) :
    fieldErrors raw = [] ↔
      checkNumGe "amount" 0 raw.amount = [] ∧
      checkText "merchant" raw.merchant = [] ∧
      checkText "category" raw.category = [] ∧
      checkNumGe "distance_from_home" 0 raw.distance_from_home = [] ∧
      checkNumGe "distance_from_last_transaction" 0 raw.distance_from_last_transaction = [] ∧
      checkBool "repeat_retailer" raw.repeat_retailer = [] ∧
      checkBool "used_chip" raw.used_chip = [] ∧
      checkBool "used_pin_number" raw.used_pin_number = [] ∧
      checkBool "online_order" raw.online_order = [] ∧
      checkIntBetween "hour" 0 23 raw.hour = [] ∧
      checkIntBetween "age" 16 120 raw.age = [] ∧
      checkBool "international" raw.international = [] ∧
      checkIntGe "velocity_24h" 0 raw.velocity_24h = [] := by
  unfold fieldErrors
  simp only [List.append_eq_nil]
  tauto

/-- Validation succeeds exactly when no check fires, and then returns the
extracted record. -/
lemma validate_ok_iff (raw : RawTransaction) (t : Transaction) :
    validate raw = Except.ok t ↔ fieldErrors raw = [] ∧ t = extract raw := by
  unfold validate
  cases h : fieldErrors raw with
  | nil => simp [eq_comm]
  | cons e es => simp

/-- Serializing a valid transaction and validating it round-trips. -/
lemma validate_rawOf (t : Transaction) (h : t.Valid) : validate (rawOf t) = Except.ok t := by
  obtain ⟨ha, hdh, hdl, hh0, hh23, ha16, ha120, hv⟩ := h
  have hnil : fieldErrors (rawOf t) = [] := by
    rw [fieldErrors_eq_nil_iff]
    refine ⟨?_, ?_, ?_, ?_, ?_, ?_, ?_, ?_, ?_, ?_, ?_, ?_, ?_⟩ <;>
      simp [rawOf, checkNumGe, checkText, checkBool, checkIntBetween, checkIntGe,
        Rat.den_intCast, Rat.num_intCast, ha, hdh, hdl, hh0, hh23, ha16, ha120, hv]
  rw [validate_ok_iff]
  refine ⟨hnil, ?_⟩
  unfold extract rawOf getNum getInt getText getBool
  simp [Rat.num_intCast]

/-- C1: for every valid Transaction the score computed by predict is the clamp
to [0,1] of the weighted sum given in the spec's table; the raw sum is at most
1.20 and equals 1.20 exactly when every maximal-contribution condition holds
simultaneously. -/
theorem predict_score_matches_spec_table (cd : String → Prediction → Option String)
    (t : Transaction) (h : t.Valid) :
    (predict cd t).score = max 0 (min (specRawSum t) 1) ∧ specRawSum t ≤ 1.20 ∧
      (specRawSum t = 1.20 ↔ MaximalConds t) := by
  have e1 : min (t.amount / 500) 1 * (0.25 : ℚ) ≤ 0.25 := clampTerm_le _ _ (by norm_num)
  have e2 : min (t.distance_from_home / 1000) 1 * (0.1 : ℚ) ≤ 0.1 :=
    clampTerm_le _ _ (by norm_num)
  have e3 : min (t.distance_from_last_transaction / 500) 1 * (0.1 : ℚ) ≤ 0.1 :=
    clampTerm_le _ _ (by norm_num)
  have e9 : min ((t.velocity_24h : ℚ) / 20) 1 * (0.19 : ℚ) ≤ 0.19 :=
    clampTerm_le _ _ (by norm_num)
  have e4 : (if t.repeat_retailer then (0 : ℚ) else 0.1) ≤ 0.1 := by split <;> norm_num
  have e5 : (if t.online_order then (0.1 : ℚ) else 0) ≤ 0.1 := by split <;> norm_num
  have e6 : (if t.used_chip then (0 : ℚ) else 0.08) ≤ 0.08 := by split <;> norm_num
  have e7 : (if t.used_pin_number then (0 : ℚ) else 0.08) ≤ 0.08 := by split <;> norm_num
  have e8 : (if t.international then (0.1 : ℚ) else 0) ≤ 0.1 := by split <;> norm_num
  have e10 : (if t.hour ∈ ({0, 1, 2, 3, 4} : Finset ℤ) then (0.1 : ℚ) else 0) ≤ 0.1 := by
    split <;> norm_num
  refine ⟨by show score t = _; rw [score, riskSum_eq_spec], ?_, ?_, ?_⟩
  · unfold specRawSum
    linarith
  · intro hsum
    unfold specRawSum at hsum
    have f1 : min (t.amount / 500) 1 * (0.25 : ℚ) = 0.25 := by linarith
    have f2 : min (t.distance_from_home / 1000) 1 * (0.1 : ℚ) = 0.1 := by linarith
    have f3 : min (t.distance_from_last_transaction / 500) 1 * (0.1 : ℚ) = 0.1 := by linarith
    have f4 : (if t.repeat_retailer then (0 : ℚ) else 0.1) = 0.1 := by linarith
    have f5 : (if t.online_order then (0.1 : ℚ) else 0) = 0.1 := by linarith
    have f6 : (if t.used_chip then (0 : ℚ) else 0.08) = 0.08 := by linarith
    have f7 : (if t.used_pin_number then (0 : ℚ) else 0.08) = 0.08 := by linarith
    have f8 : (if t.international then (0.1 : ℚ) else 0) = 0.1 := by linarith
    have f9 : min ((t.velocity_24h : ℚ) / 20) 1 * (0.19 : ℚ) = 0.19 := by linarith
    have f10 : (if t.hour ∈ ({0, 1, 2, 3, 4} : Finset ℤ) then (0.1 : ℚ) else 0) = 0.1 := by
      linarith
    refine ⟨?_, ?_, ?_, ?_, ?_, ?_, ?_, ?_, ?_, ?_⟩
    · exact (one_le_div (by norm_num : (0 : ℚ) < 500)).mp
        ((clampTerm_eq_iff _ _ (by norm_num)).mp f1)
    · exact (one_le_div (by norm_num : (0 : ℚ) < 1000)).mp
        ((clampTerm_eq_iff _ _ (by norm_num)).mp f2)
    · exact (one_le_div (by norm_num : (0 : ℚ) < 500)).mp
        ((clampTerm_eq_iff _ _ (by norm_num)).mp f3)
    · cases hb : t.repeat_retailer
      · rfl
      · rw [hb] at f4; norm_num at f4
    · cases hb : t.online_order
      · rw [hb] at f5; norm_num at f5
      · rfl
    · cases hb : t.used_chip
      · rfl
      · rw [hb] at f6; norm_num at f6
    · cases hb : t.used_pin_number
      · rfl
      · rw [hb] at f7; norm_num at f7
    · cases hb : t.international
      · rw [hb] at f8; norm_num at f8
      · rfl
    · have hq : (20 : ℚ) ≤ (t.velocity_24h : ℚ) :=
        (one_le_div (by norm_num : (0 : ℚ) < 20)).mp
          ((clampTerm_eq_iff _ _ (by norm_num)).mp f9)
      exact_mod_cast hq
    · by_cases hmem : t.hour ∈ ({0, 1, 2, 3, 4} : Finset ℤ)
      · exact hmem
      · rw [if_neg hmem] at f10; norm_num at f10
  · rintro ⟨c1, c2, c3, c4, c5, c6, c7, c8, c9, c10⟩
    unfold specRawSum
    rw [min_eq_right ((one_le_div (by norm_num : (0 : ℚ) < 500)).mpr c1),
      min_eq_right ((one_le_div (by norm_num : (0 : ℚ) < 1000)).mpr c2),
      min_eq_right ((one_le_div (by norm_num : (0 : ℚ) < 500)).mpr c3),
      min_eq_right ((one_le_div (by norm_num : (0 : ℚ) < 20)).mpr (by exact_mod_cast c9))]
    simp [c4, c5, c6, c7, c8, c10]
    norm_num

/-- Witness for C1 at the spec's low-risk example. -/
theorem predict_score_matches_spec_table_witness :
    (predict storeOk exampleTx).score = max 0 (min (specRawSum exampleTx) 1) ∧
      specRawSum exampleTx ≤ 1.20 ∧
      (specRawSum exampleTx = 1.20 ↔ MaximalConds exampleTx) :=
  predict_score_matches_spec_table storeOk exampleTx (by decide)

/-- C2: for every valid Transaction the score returned by predict lies in
[0.0, 1.0]. -/
theorem predict_score_in_unit_interval (cd : String → Prediction → Option String)
    (t : Transaction) (h : t.Valid) :
    0 ≤ (predict cd t).score ∧ (predict cd t).score ≤ 1 := by
  show 0 ≤ score t ∧ score t ≤ 1
  exact ⟨le_max_left 0 _, max_le (by norm_num) (min_le_right _ 1)⟩

/-- Witness for C2 at the spec's low-risk example. -/
theorem predict_score_in_unit_interval_witness :
    0 ≤ (predict storeOk exampleTx).score ∧ (predict storeOk exampleTx).score ≤ 1 :=
  predict_score_in_unit_interval storeOk exampleTx (by decide)

/-- C3: for every valid Transaction the label returned by predict is "Fraud"
exactly when the score is at least 0.5, is "Legit" exactly when the score is
below 0.5, and no other label value is possible. -/
theorem predict_label_fraud_iff (cd : String → Prediction → Option String)
    (t : Transaction) (h : t.Valid) :
    ((predict cd t).label = "Fraud" ↔ 0.5 ≤ (predict cd t).score) ∧
      ((predict cd t).label = "Legit" ↔ (predict cd t).score < 0.5) ∧
      ((predict cd t).label = "Fraud" ∨ (predict cd t).label = "Legit") := by
  show (label t = "Fraud" ↔ 0.5 ≤ score t) ∧ (label t = "Legit" ↔ score t < 0.5) ∧
    (label t = "Fraud" ∨ label t = "Legit")
  by_cases hs : (0.5 : ℚ) ≤ score t
  · rw [label, if_pos hs]
    exact ⟨⟨fun _ => hs, fun _ => rfl⟩,
      ⟨fun he => absurd he (by decide), fun hlt => absurd hs (not_le.mpr hlt)⟩, Or.inl rfl⟩
  · rw [label, if_neg hs]
    exact ⟨⟨fun he => absurd he (by decide), fun hge => absurd hge hs⟩,
      ⟨fun _ => not_le.mp hs, fun _ => rfl⟩, Or.inr rfl⟩

/-- Witness for C3 at the spec's low-risk example. -/
theorem predict_label_fraud_iff_witness :
    ((predict storeOk exampleTx).label = "Fraud" ↔ 0.5 ≤ (predict storeOk exampleTx).score) ∧
      ((predict storeOk exampleTx).label = "Legit" ↔ (predict storeOk exampleTx).score < 0.5) ∧
      ((predict storeOk exampleTx).label = "Fraud" ∨ (predict storeOk exampleTx).label = "Legit") :=
  predict_label_fraud_iff storeOk exampleTx (by decide)

/-- C4: for every valid Transaction the reason list of predict is the spec's
ordered list of independently checked reasons, and the explanation returned by
predict is those reasons joined with ", " behind "Risk drivers: ", or exactly
"Low-risk pattern" when no reason fires. -/
theorem predict_explanation_matches_spec (cd : String → Prediction → Option String)
    (t : Transaction) (h : t.Valid) :
    reasons t = specReasons t ∧
      (predict cd t).explanation =
        (if specReasons t = [] then "Low-risk pattern"
          else "Risk drivers: " ++ String.intercalate ", " (specReasons t)) := by
  have hre : reasons t = specReasons t := by
    unfold reasons specReasons
    simp only [mem_nightHours_iff]
    cases t.repeat_retailer <;> cases t.used_chip <;> cases t.used_pin_number <;> simp
  refine ⟨hre, ?_⟩
  show explanation t = _
  rcases eq_or_ne (specReasons t) [] with hs | hs
  · simp [explanation, hre, hs]
  · simp [explanation, hre, hs]

/-- Witness for C4 at the spec's low-risk example. -/
theorem predict_explanation_matches_spec_witness :
    reasons exampleTx = specReasons exampleTx ∧
      (predict storeOk exampleTx).explanation =
        (if specReasons exampleTx = [] then "Low-risk pattern"
          else "Risk drivers: " ++ String.intercalate ", " (specReasons exampleTx)) :=
  predict_explanation_matches_spec storeOk exampleTx (by decide)

/-- C5: the score is monotone non-decreasing in each risk-increasing numeric
field: raising exactly one of amount, distance_from_home,
distance_from_last_transaction or velocity_24h of a valid Transaction, with all
other fields unchanged, never decreases the score. -/
theorem score_monotone_in_risk_fields :
    (∀ (t : Transaction) (x : ℚ), t.Valid → t.amount ≤ x →
        score t ≤ score { t with amount := x }) ∧
      (∀ (t : Transaction) (x : ℚ), t.Valid → t.distance_from_home ≤ x →
        score t ≤ score { t with distance_from_home := x }) ∧
      (∀ (t : Transaction) (x : ℚ), t.Valid → t.distance_from_last_transaction ≤ x →
        score t ≤ score { t with distance_from_last_transaction := x }) ∧
      (∀ (t : Transaction) (x : ℤ), t.Valid → t.velocity_24h ≤ x →
        score t ≤ score { t with velocity_24h := x }) := by
  refine ⟨?_, ?_, ?_, ?_⟩
  · intro t x hval hle
    apply score_mono_of_riskSum
    unfold riskSum
    dsimp only
    gcongr
  · intro t x hval hle
    apply score_mono_of_riskSum
    unfold riskSum
    dsimp only
    gcongr
  · intro t x hval hle
    apply score_mono_of_riskSum
    unfold riskSum
    dsimp only
    gcongr
  · intro t x hval hle
    have hq : (t.velocity_24h : ℚ) ≤ (x : ℚ) := by exact_mod_cast hle
    apply score_mono_of_riskSum
    unfold riskSum
    dsimp only
    gcongr

/-- Witness for C5: raising the example's amount to 600 does not lower the
score. -/
theorem score_monotone_in_risk_fields_witness :
    score exampleTx ≤ score { exampleTx with amount := 600 } :=
  score_monotone_in_risk_fields.1 exampleTx 600 (by decide) (by decide)

/-- C6: the validator rejects with a structured 422 error, without running the
scorer, every input with a missing required field, a negative amount or
distance, hour outside [0,23], age outside [16,120], negative velocity, or a
boolean/text field of wrong type; on success it produces a typed record in
range that the scorer consumes. -/
theorem validator_rejects_bad_accepts_valid (cd : String → Prediction → Option String)
    (raw : RawTransaction) :
    (BadInput raw →
      fieldErrors raw ≠ [] ∧ validate raw = Except.error (fieldErrors raw) ∧
        handlePredict cd raw = PredictHttpResult.validationError (fieldErrors raw) ∧
        (handlePredict cd raw).status = 422) ∧
      (∀ t, validate raw = Except.ok t →
        t.Valid ∧ handlePredict cd raw = PredictHttpResult.ok (predict cd t) ∧
          (handlePredict cd raw).status = 200) := by
  constructor
  · intro hbad
    have hne : fieldErrors raw ≠ [] := by
      intro hnil
      rw [fieldErrors_eq_nil_iff] at hnil
      obtain ⟨n1, n2, n3, n4, n5, n6, n7, n8, n9, n10, n11, n12, n13⟩ := hnil
      obtain ⟨qa, ea, la⟩ := (checkNumGe_eq_nil_iff _ _ _).mp n1
      obtain ⟨sm, em⟩ := (checkText_eq_nil_iff _ _).mp n2
      obtain ⟨sc, ec⟩ := (checkText_eq_nil_iff _ _).mp n3
      obtain ⟨qh, eh, lh⟩ := (checkNumGe_eq_nil_iff _ _ _).mp n4
      obtain ⟨ql, el, ll⟩ := (checkNumGe_eq_nil_iff _ _ _).mp n5
      obtain ⟨br, er⟩ := (checkBool_eq_nil_iff _ _).mp n6
      obtain ⟨bc, ecp⟩ := (checkBool_eq_nil_iff _ _).mp n7
      obtain ⟨bp, ep⟩ := (checkBool_eq_nil_iff _ _).mp n8
      obtain ⟨bo, eo⟩ := (checkBool_eq_nil_iff _ _).mp n9
      obtain ⟨qhr, ehr, dhr, lhr, uhr⟩ := (checkIntBetween_eq_nil_iff _ _ _ _).mp n10
      obtain ⟨qag, eag, dag, lag, uag⟩ := (checkIntBetween_eq_nil_iff _ _ _ _).mp n11
      obtain ⟨bi, ei⟩ := (checkBool_eq_nil_iff _ _).mp n12
      obtain ⟨qv, ev, dv, lv⟩ := (checkIntGe_eq_nil_iff _ _ _).mp n13
      rcases hbad with hm | ⟨q, hq, hlt⟩ | ⟨q, hq, hlt⟩ | ⟨q, hq, hlt⟩ |
        ⟨q, hq, hd, hout⟩ | ⟨q, hq, hd, hout⟩ | ⟨q, hq, hd, hlt⟩ | hw
      · rcases hm with h | h | h | h | h | h | h | h | h | h | h | h | h <;> simp_all
      · rw [ea] at hq
        cases hq
        exact absurd la (not_le.mpr hlt)
      · rw [eh] at hq
        cases hq
        exact absurd lh (not_le.mpr hlt)
      · rw [el] at hq
        cases hq
        exact absurd ll (not_le.mpr hlt)
      · rw [ehr] at hq
        cases hq
        rcases hout with hlo | hhi
        · exact absurd lhr (not_le.mpr hlo)
        · exact absurd uhr (not_le.mpr hhi)
      · rw [eag] at hq
        cases hq
        rcases hout with hlo | hhi
        · exact absurd lag (not_le.mpr hlo)
        · exact absurd uag (not_le.mpr hhi)
      · rw [ev] at hq
        cases hq
        exact absurd lv (not_le.mpr hlt)
      · rcases hw with ⟨j, hj, hns⟩ | ⟨j, hj, hns⟩ | ⟨j, hj, hns⟩ | ⟨j, hj, hns⟩ |
          ⟨j, hj, hns⟩ | ⟨j, hj, hns⟩ | ⟨j, hj, hns⟩
        · rw [em] at hj
          cases hj
          exact hns sm rfl
        · rw [ec] at hj
          cases hj
          exact hns sc rfl
        · rw [er] at hj
          cases hj
          exact hns br rfl
        · rw [ecp] at hj
          cases hj
          exact hns bc rfl
        · rw [ep] at hj
          cases hj
          exact hns bp rfl
        · rw [eo] at hj
          cases hj
          exact hns bo rfl
        · rw [ei] at hj
          cases hj
          exact hns bi rfl
    have hval : validate raw = Except.error (fieldErrors raw) := by
      unfold validate
      cases h : fieldErrors raw with
      | nil => exact absurd h hne
      | cons e es => simp
    have hh : handlePredict cd raw = PredictHttpResult.validationError (fieldErrors raw) := by
      unfold handlePredict
      rw [hval]
    exact ⟨hne, hval, hh, by rw [hh]; rfl⟩
  · intro t hok
    have hok' := hok
    rw [validate_ok_iff] at hok'
    obtain ⟨hnil, ht⟩ := hok'
    rw [fieldErrors_eq_nil_iff] at hnil
    obtain ⟨n1, n2, n3, n4, n5, n6, n7, n8, n9, n10, n11, n12, n13⟩ := hnil
    obtain ⟨qa, ea, la⟩ := (checkNumGe_eq_nil_iff _ _ _).mp n1
    obtain ⟨qh, eh, lh⟩ := (checkNumGe_eq_nil_iff _ _ _).mp n4
    obtain ⟨ql, el, ll⟩ := (checkNumGe_eq_nil_iff _ _ _).mp n5
    obtain ⟨qhr, ehr, dhr, lhr, uhr⟩ := (checkIntBetween_eq_nil_iff _ _ _ _).mp n10
    obtain ⟨qag, eag, dag, lag, uag⟩ := (checkIntBetween_eq_nil_iff _ _ _ _).mp n11
    obtain ⟨qv, ev, dv, lv⟩ := (checkIntGe_eq_nil_iff _ _ _).mp n13
    have hvalid : t.Valid := by
      subst ht
      unfold Transaction.Valid extract
      rw [ea, eh, el, ehr, eag, ev]
      unfold getNum getInt
      exact ⟨la, lh, ll, lhr, uhr, lag, uag, lv⟩
    have hh : handlePredict cd raw = PredictHttpResult.ok (predict cd t) := by
      unfold handlePredict
      rw [hok]
    exact ⟨hvalid, hh, by rw [hh]; rfl⟩

/-- Witness for C6: a request body with hour = 24 is rejected with status
422. -/
theorem validator_rejects_bad_accepts_valid_witness :
    fieldErrors rawBadHour ≠ [] ∧
      validate rawBadHour = Except.error (fieldErrors rawBadHour) ∧
      handlePredict storeOk rawBadHour = PredictHttpResult.validationError (fieldErrors rawBadHour) ∧
      (handlePredict storeOk rawBadHour).status = 422 :=
  (validator_rejects_bad_accepts_valid storeOk rawBadHour).1
    (Or.inr (Or.inr (Or.inr (Or.inr (Or.inl ⟨24, rfl, rfl, Or.inr (by decide)⟩)))))

/-- C7: for every valid Transaction, when the persistence write fails the
predict operation still returns a 200 response whose stored_id is none, with
score, label and explanation exactly as under a succeeding store; the failure
never surfaces as an HTTP error. -/
theorem persistence_failure_nonfatal (t : Transaction) (h : t.Valid)
    (cdFail cdOk : String → Prediction → Option String)
    (hfail : ∀ c p, cdFail c p = none) :
    (predict cdFail t).stored_id = none ∧
      (predict cdFail t).score = (predict cdOk t).score ∧
      (predict cdFail t).label = (predict cdOk t).label ∧
      (predict cdFail t).explanation = (predict cdOk t).explanation ∧
      handlePredict cdFail (rawOf t) = PredictHttpResult.ok (predict cdFail t) ∧
      (handlePredict cdFail (rawOf t)).status = 200 := by
  have hh : handlePredict cdFail (rawOf t) = PredictHttpResult.ok (predict cdFail t) := by
    unfold handlePredict
    rw [validate_rawOf t h]
  exact ⟨hfail "prediction" _, rfl, rfl, rfl, hh, by rw [hh]; rfl⟩

/-- Witness for C7 at the spec's low-risk example with an always-failing
store. -/
theorem persistence_failure_nonfatal_witness :
    (predict storeFail exampleTx).stored_id = none ∧
      (predict storeFail exampleTx).score = (predict storeOk exampleTx).score ∧
      (predict storeFail exampleTx).label = (predict storeOk exampleTx).label ∧
      (predict storeFail exampleTx).explanation = (predict storeOk exampleTx).explanation ∧
      handlePredict storeFail (rawOf exampleTx) = PredictHttpResult.ok (predict storeFail exampleTx) ∧
      (handlePredict storeFail (rawOf exampleTx)).status = 200 :=
  persistence_failure_nonfatal exampleTx (by decide) storeFail storeOk (fun _ _ => rfl)

/-- C8 counterexample: on the spec's worked example (amount=50,
distance_from_home=5, distance_from_last_transaction=2, velocity_24h=1,
hour=14, all card-present flags set), the raw sum and score are exactly
177/5000 = 0.0354, which differs from the claimed 0.025 by 0.0104 — more than
0.01 in absolute terms and over 40 percent in relative terms, so neither is
approximately 0.025. -/
theorem example_score_not_approx_claimed :
    riskSum exampleTx = 177 / 5000 ∧ score exampleTx = 177 / 5000 ∧
      ¬(|riskSum exampleTx - 0.025| ≤ 0.01) ∧ ¬(|score exampleTx - 0.025| ≤ 0.01) := by
  have hr : riskSum exampleTx = 177 / 5000 := by
    norm_num [riskSum, exampleTx, nightHours, min_def]
  have hs : score exampleTx = 177 / 5000 := by
    norm_num [score, riskSum, exampleTx, nightHours, min_def, max_def]
  refine ⟨hr, hs, ?_, ?_⟩
  · rw [hr]
    norm_num [abs_of_pos]
  · rw [hs]
    norm_num [abs_of_pos]

/-- C8 amended: on the spec's worked example the raw sum is exactly 0.0354
(amount term 0.025 plus distance terms 0.0005 and 0.0004 plus velocity term
0.0095), hence the score is exactly 0.0354, the label is "Legit" and the
explanation is exactly "Low-risk pattern". -/
theorem example_exact_score_amended :
    riskSum exampleTx = 0.0354 ∧ (predict storeOk exampleTx).score = 0.0354 ∧
      (predict storeOk exampleTx).label = "Legit" ∧
      (predict storeOk exampleTx).explanation = "Low-risk pattern" := by
  refine ⟨?_, ?_, ?_, ?_⟩
  · norm_num [riskSum, exampleTx, nightHours, min_def]
  · show score exampleTx = 0.0354
    norm_num [score, riskSum, exampleTx, nightHours, min_def, max_def]
  · show label exampleTx = "Legit"
    norm_num [label, score, riskSum, exampleTx, nightHours, min_def, max_def]
  · show explanation exampleTx = "Low-risk pattern"
    norm_num [explanation, reasons, exampleTx, nightHours]

/-- C9: scoring is deterministic: two predict calls on identical valid inputs
yield identical score, label and explanation, whatever each call's persistence
collaborator does (the computation reads no state besides the input). -/
theorem predict_deterministic (cd1 cd2 : String → Prediction → Option String)
    (t1 t2 : Transaction) (h : t1.Valid) (heq : t1 = t2) :
    (predict cd1 t1).score = (predict cd2 t2).score ∧
      (predict cd1 t1).label = (predict cd2 t2).label ∧
      (predict cd1 t1).explanation = (predict cd2 t2).explanation := by
  subst heq
  exact ⟨rfl, rfl, rfl⟩

/-- Witness for C9 at the spec's low-risk example under two different
persistence collaborators. -/
theorem predict_deterministic_witness :
    (predict storeFail exampleTx).score = (predict storeOk exampleTx).score ∧
      (predict storeFail exampleTx).label = (predict storeOk exampleTx).label ∧
      (predict storeFail exampleTx).explanation = (predict storeOk exampleTx).explanation :=
  predict_deterministic storeFail storeOk exampleTx exampleTx (by decide) rfl

set_option maxHeartbeats 1000000 in
/-- C10: merchant, category and age do not influence the prediction: two valid
Transactions agreeing on every other field get identical score, label and
explanation from predict. -/
theorem merchant_category_age_ignored (cd : String → Prediction → Option String)
    (t1 t2 : Transaction) (h1 : t1.Valid) (h2 : t2.Valid)
    (ham : t1.amount = t2.amount)
    (hdh : t1.distance_from_home = t2.distance_from_home)
    (hdl : t1.distance_from_last_transaction = t2.distance_from_last_transaction)
    (hrr : t1.repeat_retailer = t2.repeat_retailer)
    (huc : t1.used_chip = t2.used_chip)
    (hup : t1.used_pin_number = t2.used_pin_number)
    (hoo : t1.online_order = t2.online_order)
    (hhr : t1.hour = t2.hour)
    (hin : t1.international = t2.international)
    (hv : t1.velocity_24h = t2.velocity_24h) :
    (predict cd t1).score = (predict cd t2).score ∧
      (predict cd t1).label = (predict cd t2).label ∧
      (predict cd t1).explanation = (predict cd t2).explanation := by
  show score t1 = score t2 ∧ label t1 = label t2 ∧ explanation t1 = explanation t2
  have hr : riskSum t1 = riskSum t2 := by
    unfold riskSum
    rw [ham, hdh, hdl, hrr, huc, hup, hoo, hhr, hin, hv]
  have hsc : score t1 = score t2 := by
    unfold score
    rw [hr]
  have hre : reasons t1 = reasons t2 := by
    unfold reasons
    rw [ham, hdh, hrr, huc, hup, hoo, hhr, hin, hv]
  refine ⟨hsc, ?_, ?_⟩
  · unfold label
    rw [hsc]
  · unfold explanation
    rw [hre]

/-- Witness for C10: the example transaction with merchant, category and age
changed gets the same prediction. -/
theorem merchant_category_age_ignored_witness :
    (predict storeOk exampleTx).score = (predict storeOk exampleTx2).score ∧
      (predict storeOk exampleTx).label = (predict storeOk exampleTx2).label ∧
      (predict storeOk exampleTx).explanation = (predict storeOk exampleTx2).explanation :=
  merchant_category_age_ignored storeOk exampleTx exampleTx2 (by decide) (by decide)
    rfl rfl rfl rfl rfl rfl rfl rfl rfl rfl
